import Mathlib

set_option maxRecDepth 16384

/-
  Verification of the ECO-AFRIQA static page-composition components.

  The repository consists of presentational React components (an About page,
  a Team section, a FarmingSystems section) and a Tailwind style
  configuration.  We embed the JSX trees as values of an HTML-like `Node`
  type: JSX elements become `Node.elem tag attrs children`, JSX text becomes
  `Node.text`, and imported external components (Nav, Hero, ...) become
  `Node.comp name`.  Components, which in the source are nullary functions,
  become Lean functions `Unit → Node`; the leaf card component `FarmCard`
  takes a props record.  Rendering to a string is a deterministic function
  of the tree.
-/

/-- A JavaScript prop value as it occurs in the sources: a string literal,
a numeric literal, or the absent/undefined value. -/
inductive JVal where
  | str (s : String)
  | num (n : Int)
  | undef
deriving DecidableEq

/-- How React renders a prop value as text: strings render as themselves,
numbers via decimal notation, and `undefined` renders as nothing. -/
def JVal.toText : JVal → String
  | .str s => s
  | .num n => toString n
  | .undef => ""

/-- `true` exactly when the value is a string. -/
def JVal.isString : JVal → Bool
  | .str _ => true
  | _ => false

/-- `true` exactly when the value is a number. -/
def JVal.isNumber : JVal → Bool
  | .num _ => true
  | _ => false

/-- A rendered markup tree: an element with a tag, attributes and children;
a text node; or an opaque external component reference. -/
inductive Node where
  | elem (tag : String) (attrs : List (String × String)) (children : List Node)
  | text (s : String)
  | comp (name : String)

/-- Render an attribute list as markup text. -/
def renderAttrs : List (String × String) → String
  | [] => ""
  | (k, v) :: rest => " " ++ k ++ "=\"" ++ v ++ "\"" ++ renderAttrs rest

mutual

/-- Render a tree to its output string (deterministic serialisation). -/
def render : Node → String
  | .text s => s
  | .comp name => "<" ++ name ++ "/>"
  | .elem tag attrs children =>
      "<" ++ tag ++ renderAttrs attrs ++ ">" ++ renderList children ++ "</" ++ tag ++ ">"

/-- Render a list of trees in order. -/
def renderList : List Node → String
  | [] => ""
  | c :: cs => render c ++ renderList cs

end

mutual

/-- All text-node contents of a tree, in document order. -/
def texts : Node → List String
  | .text s => [s]
  | .comp _ => []
  | .elem _ _ children => textsList children

/-- Text-node contents of a list of trees. -/
def textsList : List Node → List String
  | [] => []
  | c :: cs => texts c ++ textsList cs

end

mutual

/-- All attributes of a tree, in document order. -/
def allAttrs : Node → List (String × String)
  | .text _ => []
  | .comp _ => []
  | .elem _ attrs children => attrs ++ allAttrsList children

/-- Attributes of a list of trees. -/
def allAttrsList : List Node → List (String × String)
  | [] => []
  | c :: cs => allAttrs c ++ allAttrsList cs

end

/-- All attribute keys of a tree, in document order. -/
def attrKeys (n : Node) : List String :=
  (allAttrs n).map Prod.fst

/-- All attribute values of a tree, in document order. -/
def attrValues (n : Node) : List String :=
  (allAttrs n).map Prod.snd

/-- The values carried by attributes with the given key, in document order. -/
def attrValuesOf (key : String) (n : Node) : List String :=
  ((allAttrs n).filter (fun a => a.fst == key)).map Prod.snd

/-- `true` when an attribute key is a React event-handler prop
(`onClick`, `onChange`, ...): they all start with the letters `on`. -/
def isHandlerKey (k : String) : Bool :=
  match k.data with
  | 'o' :: 'n' :: _ => true
  | _ => false

/-- `true` when the tree attaches any event handler anywhere. -/
def hasEventHandler (n : Node) : Bool :=
  (attrKeys n).any isHandlerKey

/-- The children list of the root element of a tree. -/
def childrenOf : Node → List Node
  | .elem _ _ cs => cs
  | _ => []

/-- The props record of the leaf card component: an ordinal number, an
image path, a title and a body text, exactly the four JSX attributes each
`FarmCard` call site supplies. -/
structure FarmCardProps where
  number : JVal
  img : JVal
  title : JVal
  body : JVal
deriving DecidableEq

/-- Modelled from the spec: the `FarmCard` leaf component itself is not
among the supplied source files (only its call sites in `FarmingSystems`
are).  Per the spec it renders one visual card from the record
(number, image, title, body) as a deterministic block — a number badge, the
image reference, the title and the body — with no validation, no error
paths, and missing optional fields rendering as empty rather than
throwing (the function is total). -/
def FarmCard (p : FarmCardProps) : Node :=
  Node.elem "div" []
    [ Node.elem "span" [] [Node.text p.number.toText]
    , Node.elem "img" [("src", p.img.toText)] []
    , Node.elem "h4" [] [Node.text p.title.toText]
    , Node.elem "p" [] [Node.text p.body.toText] ]

/-- The body text shared by the three farming-system cards. -/
def farmBodyText : String :=
  "Lorem ipsum dolor sit amet, consectetur adipiscing elit, sed do eiusmod tempor incididunt ut labore et dolore magna aliqua. Ut enim ad minim veniam, quis nostrud exercitation ullamco laboris nisi ut."

/-- The three display records the `FarmingSystems` section passes to
`FarmCard`, in source order. -/
def farmingSystemsCards : List FarmCardProps :=
  [ ⟨JVal.num 1, JVal.str "/static/media/veggieRack.png", JVal.str "Hydroponics System", JVal.str farmBodyText⟩
  , ⟨JVal.num 2, JVal.str "/static/media/veggieRack2.png", JVal.str "Vertical System", JVal.str farmBodyText⟩
  , ⟨JVal.num 4, JVal.str "/static/media/veggieFish.png", JVal.str "Aquaponics System", JVal.str farmBodyText⟩ ]

/-- The `FarmingSystems` section component (source: FarmingSystems.js). -/
def FarmingSystems : Unit → Node := fun _ =>
  Node.elem "div" [("className", "block overflow-x-hidden")]
    [ Node.elem "div" [("className", "flex justify-center items-center")]
      [ Node.elem "div" [("className", "block")]
        [ Node.elem "h3" [("className", "text-[25px] lg:text-[40px] font-[900] font-inter text-[#008000] text-center")]
            [Node.text "POPULAR FARMING SYSTEMS"]
        , Node.elem "div" [("className", "block space-y-[20px] lg:flex lg:space-x-[20px]")]
            [ FarmCard ⟨JVal.num 1, JVal.str "/static/media/veggieRack.png", JVal.str "Hydroponics System", JVal.str farmBodyText⟩
            , FarmCard ⟨JVal.num 2, JVal.str "/static/media/veggieRack2.png", JVal.str "Vertical System", JVal.str farmBodyText⟩
            , FarmCard ⟨JVal.num 4, JVal.str "/static/media/veggieFish.png", JVal.str "Aquaponics System", JVal.str farmBodyText⟩ ] ] ] ]

/-- The row of card blocks inside the `FarmingSystems` section: the second
child of the innermost `block` div. -/
def farmCardRow (n : Node) : List Node :=
  match n with
  | .elem _ _ [.elem _ _ [.elem _ _ [_, .elem _ _ cards]]] => cards
  | _ => []

/-- First testimonial body text of the Team section (with its literal
surrounding quote marks, as it appears as JSX text). -/
def teamBodyA : String :=
  "\"Freshly Farm\x27s expertise has empowered our local farmers, improving the quality and quantity of our community garden\x27s harvests.\""

/-- Second testimonial body text of the Team section (with its literal
surrounding quote marks, as it appears as JSX text). -/
def teamBodyB : String :=
  "\"Lorem ipsum dolor sit amet, consectetur adipiscing elit, sed do eiusmod tempor incididunt ut labore et dolore magna aliqua.\""

/-- Class string of the circular member-photo div, identical in all six
member blocks of Team.js. -/
def teamImgClass : String :=
  "mx-auto bg-cover bg-center w-[131px] h-[130px] flex-shrink-0 rounded-full border-[18px] border-[#008000]"

/-- The inline style of the member-photo div: `style=\x7b\x7b backgroundImage:
"url(...)" \x7d\x7d` in the source, flattened here to one attribute. -/
def teamImgStyle : String :=
  "url(\x27/static/media/teamMember.png\x27)"

/-- Class string of the member-name paragraph in Team.js. -/
def teamNameClass : String :=
  "text-black text-[24px] font-[700] font-inter"

/-- Class string of the member-role paragraph in Team.js. -/
def teamRoleClass : String :=
  "text-[#008000] text-[20px] font-[700] font-inter"

/-- Class string of the testimonial-body paragraph in Team.js. -/
def teamTestimonialClass : String :=
  "text-black text-[16px] font-[300] w-[199px] font-josefin  leading-[20.8px] text-start"

/-- The `Team` section component (source: Team.js).  The six member blocks
are literal, copy-pasted markup in the source; they are transcribed here
one by one, in source order. -/
def Team : Unit → Node := fun _ =>
  Node.elem "div" [("className", "block ")]
    [ Node.elem "h5" [("className", "text-[#008000] text-[45px] text-center font-inter pt-[150px] ")]
        [Node.text "Meet Our Team"]
    , Node.elem "div" [("className", "flex flex-wrap  justify-between  w-[100%] space-y-[20px] lg:space-y-[0px]  ")]
      [ Node.elem "div" [("className", "block mx-auto w-[204px] space-y-[12px] relative")]
        [ Node.elem "div" [("className", teamImgClass), ("backgroundImage", teamImgStyle)] []
        , Node.elem "p" [("className", teamNameClass)] [Node.text "Malaika Muchiri"]
        , Node.elem "p" [("className", teamRoleClass)] [Node.text "Chief Executive Officer"]
        , Node.elem "p" [("className", teamTestimonialClass)] [Node.text teamBodyA] ]
      , Node.elem "div" [("className", "block mx-auto w-[204px] space-y-[12px] relative")]
        [ Node.elem "div" [("className", teamImgClass), ("backgroundImage", teamImgStyle)] []
        , Node.elem "p" [("className", teamNameClass)] [Node.text "Malaika Muchiri"]
        , Node.elem "p" [("className", teamRoleClass)] [Node.text "Chief Executive Officer"]
        , Node.elem "p" [("className", teamTestimonialClass)] [Node.text teamBodyB] ]
      , Node.elem "div" [("className", "block mx-auto w-[204px] space-y-[12px] relative")]
        [ Node.elem "div" [("className", teamImgClass), ("backgroundImage", teamImgStyle)] []
        , Node.elem "p" [("className", teamNameClass)] [Node.text "Malaika Muchiri"]
        , Node.elem "p" [("className", teamRoleClass)] [Node.text "Chief Executive Officer"]
        , Node.elem "p" [("className", teamTestimonialClass)] [Node.text teamBodyA] ] ]
    , Node.elem "div" [("className", "flex flex-wrap justify-center mt-[71px] lg:space-x-[235px]  w-[100%]  space-y-[20px] lg:space-y-[0px]")]
      [ Node.elem "div" [("className", "block space-y-[12px] relative")]
        [ Node.elem "div" [("className", teamImgClass), ("backgroundImage", teamImgStyle)] []
        , Node.elem "p" [("className", teamNameClass)] [Node.text "Malaika Muchiri"]
        , Node.elem "p" [("className", teamRoleClass)] [Node.text "Chief Executive Officer"]
        , Node.elem "p" [("className", teamTestimonialClass)] [Node.text teamBodyB] ]
      , Node.elem "div" [("className", "block space-y-[12px] relative")]
        [ Node.elem "div" [("className", teamImgClass), ("backgroundImage", teamImgStyle)] []
        , Node.elem "p" [("className", teamNameClass)] [Node.text "Malaika Muchiri"]
        , Node.elem "p" [("className", teamRoleClass)] [Node.text "Chief Executive Officer"]
        , Node.elem "p" [("className", teamTestimonialClass)] [Node.text teamBodyB] ]
      , Node.elem "div" [("className", "block space-y-[12px] relative")]
        [ Node.elem "div" [("className", teamImgClass), ("backgroundImage", teamImgStyle)] []
        , Node.elem "p" [("className", teamNameClass)] [Node.text "Malaika Muchiri"]
        , Node.elem "p" [("className", teamRoleClass)] [Node.text "Chief Executive Officer"]
        , Node.elem "p" [("className", teamTestimonialClass)] [Node.text teamBodyB] ] ]
    , Node.elem "div" [("className", "flex justify-center mt-[120px]")]
      [ Node.elem "button" [("className", "w-[272px] h-[70px] bg-[#008000] rounded-[15px] mt-[62px] text-white text-[25px] border-none")]
          [Node.text "View All"] ] ]

/-- The `About` page component (source: About.js).  `Nav`, `Hero`,
`WhyChoose`, `MissionVision`, `StriveFor`, `Testimonials`, `JoinUs` and
`FreshlyFooter` are imported external components; `Team` is the section
defined above. -/
def About : Unit → Node := fun _ =>
  Node.elem "div" [("className", "overflow-x-hidden")]
    [ Node.comp "Nav"
    , Node.comp "Hero"
    , Node.comp "WhyChoose"
    , Node.comp "MissionVision"
    , Node.comp "StriveFor"
    , Node.comp "Testimonials"
    , Team ()
    , Node.comp "JoinUs"
    , Node.comp "FreshlyFooter" ]

/-- The first row of member-card blocks of the Team section. -/
def teamRow1 : List Node :=
  match Team () with
  | .elem _ _ [_, .elem _ _ row1, _, _] => row1
  | _ => []

/-- The second row of member-card blocks of the Team section. -/
def teamRow2 : List Node :=
  match Team () with
  | .elem _ _ [_, _, .elem _ _ row2, _] => row2
  | _ => []

/-- The six member-card blocks of the Team section: the children of the
first row followed by the children of the second row. -/
def teamCardBlocks : List Node :=
  teamRow1 ++ teamRow2

/-- The first display record of the FarmingSystems section. -/
def hydroponicsCard : FarmCardProps :=
  ⟨JVal.num 1, JVal.str "/static/media/veggieRack.png", JVal.str "Hydroponics System", JVal.str farmBodyText⟩

/-- The `View All` button of the Team section. -/
def teamViewAllButton : Node :=
  match Team () with
  | .elem _ _ [_, _, _, .elem _ _ [b]] => b
  | _ => .text ""

/-- The first displayed text of a card block (the member name for a team
card; the ordinal badge for a farm card). -/
def cardFirstText (c : Node) : String :=
  (texts c).getD 0 ""

/-- The second displayed text of a card block (the member role for a team
card; the title for a farm card). -/
def cardSecondText (c : Node) : String :=
  (texts c).getD 1 ""

/-- The third displayed text of a card block (the body text). -/
def cardThirdText (c : Node) : String :=
  (texts c).getD 2 ""

/-- The dark-mode strategy of the style configuration: `false` (disabled),
`'media'`, or `'class'`. -/
inductive DarkMode where
  | disabled
  | mediaStrategy
  | classStrategy
deriving DecidableEq

/-- The Tailwind configuration object's recognized option groups, as
declared by the configuration file. -/
structure TailwindConfig where
  purge : List String
  darkMode : DarkMode
  themeExtend : List (String × String)
  variantsExtend : List (String × String)
  plugins : List String
  preflight : Bool
deriving DecidableEq

/-- The exported style configuration (source: tailwind.config.js,
`module.exports`): two content-scan globs, dark mode `false`, empty
`theme.extend`, empty `variants.extend`, no plugins, and
`corePlugins.preflight` set to `false`. -/
def tailwindConfig : TailwindConfig :=
  ⟨ ["./src/**/*.\x7bjs,jsx,ts,tsx\x7d", "./public/index.html"]
  , DarkMode.disabled
  , []
  , []
  , []
  , false ⟩

/-- Claim C1: the About page renders navigation, hero, mission/vision,
team, join-us and footer in exactly that declared relative order: those
sections form a subsequence of the page's children list, for every
invocation of the page component. -/
theorem about_sections_in_declared_order (u : Unit) :
    List.Sublist
      [Node.comp "Nav", Node.comp "Hero", Node.comp "MissionVision", Team (), Node.comp "JoinUs", Node.comp "FreshlyFooter"]
      (childrenOf (About u)) :=
  .cons₂ _ (.cons₂ _ (.cons _ (.cons₂ _ (.cons _ (.cons _ (.cons₂ _ (.cons₂ _ (.cons₂ _ .slnil))))))))

/-- Claim C1 witness: the section order at one concrete invocation. -/
theorem about_sections_in_declared_order_witness :
    List.Sublist
      [Node.comp "Nav", Node.comp "Hero", Node.comp "MissionVision", Team (), Node.comp "JoinUs", Node.comp "FreshlyFooter"]
      (childrenOf (About ())) :=
  about_sections_in_declared_order ()

/-- Claim C2 counterexample: the first record the FarmingSystems section
passes to FarmCard is among the supplied display records, yet its ordinal
`number` field is a numeric value, not a string — so not every field of
every supplied record is a present string. -/
theorem farm_record_number_not_string :
    hydroponicsCard ∈ farmingSystemsCards ∧ hydroponicsCard.number.isString = false := by
  decide

/-- Claim C2 (amended): every display record the FarmingSystems section
passes to the FarmCard leaf component has all four fields present (none is
the undefined value); the image, title and body fields are strings, while
the ordinal number field is a number rather than a string. -/
theorem farm_record_fields_present (p : FarmCardProps) (h : p ∈ farmingSystemsCards) :
    p.number ≠ JVal.undef ∧ p.number.isNumber = true ∧ p.img.isString = true ∧
      p.title.isString = true ∧ p.body.isString = true := by
  fin_cases h <;> exact ⟨by decide, rfl, rfl, rfl, rfl⟩

/-- Claim C2 witness: the amended field invariant at the first record. -/
theorem farm_record_fields_present_witness :
    hydroponicsCard.number ≠ JVal.undef ∧ hydroponicsCard.number.isNumber = true ∧
      hydroponicsCard.img.isString = true ∧ hydroponicsCard.title.isString = true ∧
      hydroponicsCard.body.isString = true :=
  farm_record_fields_present hydroponicsCard (by decide)

/-- Claim C3: the FarmingSystems section renders exactly as many card
blocks as it has records — its card row is precisely the map of FarmCard
over its 3 records, in input order, with the titles Hydroponics System,
Vertical System, Aquaponics System in that order. -/
theorem farmingSystems_renders_three_cards_in_order :
    farmCardRow (FarmingSystems ()) = farmingSystemsCards.map FarmCard ∧
    farmingSystemsCards.length = 3 ∧
    (farmCardRow (FarmingSystems ())).length = 3 ∧
    (farmCardRow (FarmingSystems ())).map cardSecondText
      = ["Hydroponics System", "Vertical System", "Aquaponics System"] := by
  refine ⟨rfl, rfl, rfl, by decide⟩

/-- Claim C4: for every card record supplied in the FarmingSystems section,
the rendered card block contains each field's literal text exactly once —
counted as displayed text nodes for number, title and body, and as
attribute values for the image reference, which is passed through
unchanged. -/
theorem card_fields_rendered_once (p : FarmCardProps) (h : p ∈ farmingSystemsCards) :
    (texts (FarmCard p)).count p.number.toText = 1 ∧
    (texts (FarmCard p)).count p.title.toText = 1 ∧
    (texts (FarmCard p)).count p.body.toText = 1 ∧
    attrValuesOf "src" (FarmCard p) = [p.img.toText] ∧
    (attrValues (FarmCard p)).count p.img.toText = 1 := by
  fin_cases h <;> exact ⟨by decide, by decide, by decide, by decide, by decide⟩

/-- Claim C4 witness: the record with number 1 renders the title
"Hydroponics System" once and references "/static/media/veggieRack.png"
unchanged, exactly once. -/
theorem card_fields_rendered_once_witness :
    (texts (FarmCard hydroponicsCard)).count hydroponicsCard.number.toText = 1 ∧
    (texts (FarmCard hydroponicsCard)).count hydroponicsCard.title.toText = 1 ∧
    (texts (FarmCard hydroponicsCard)).count hydroponicsCard.body.toText = 1 ∧
    attrValuesOf "src" (FarmCard hydroponicsCard) = [hydroponicsCard.img.toText] ∧
    (attrValues (FarmCard hydroponicsCard)).count hydroponicsCard.img.toText = 1 :=
  card_fields_rendered_once hydroponicsCard (by decide)

/-- Claim C5: every supplied component is a deterministic, stateless
function of its props — any two invocations of the page, the sections or
the leaf card on equal inputs serialise to byte-identical output. -/
theorem components_render_deterministically (u v : Unit) (p q : FarmCardProps) (hpq : p = q) :
    render (About u) = render (About v) ∧
    render (Team u) = render (Team v) ∧
    render (FarmingSystems u) = render (FarmingSystems v) ∧
    render (FarmCard p) = render (FarmCard q) := by
  subst hpq
  exact ⟨rfl, rfl, rfl, rfl⟩

/-- Claim C5 witness: determinism at concrete invocations. -/
theorem components_render_deterministically_witness :
    render (About ()) = render (About ()) ∧
    render (Team ()) = render (Team ()) ∧
    render (FarmingSystems ()) = render (FarmingSystems ()) ∧
    render (FarmCard hydroponicsCard) = render (FarmCard hydroponicsCard) :=
  components_render_deterministically () () hydroponicsCard hydroponicsCard rfl

/-- Claim C6: a card record whose optional body field is absent renders
with an empty body position — the card's displayed texts are the number,
the title, and the empty string where the body would be — and rendering is
a total function, so no invocation throws. -/
theorem missing_body_renders_empty (n i t : JVal) :
    cardThirdText (FarmCard ⟨n, i, t, JVal.undef⟩) = "" ∧
    texts (FarmCard ⟨n, i, t, JVal.undef⟩) = [n.toText, t.toText, ""] :=
  ⟨rfl, rfl⟩

/-- Claim C6 witness: an absent body renders as empty on a concrete card. -/
theorem missing_body_renders_empty_witness :
    cardThirdText (FarmCard ⟨JVal.num 1, JVal.str "/static/media/veggieRack.png", JVal.str "Hydroponics System", JVal.undef⟩) = "" ∧
    texts (FarmCard ⟨JVal.num 1, JVal.str "/static/media/veggieRack.png", JVal.str "Hydroponics System", JVal.undef⟩)
      = [(JVal.num 1).toText, (JVal.str "Hydroponics System").toText, ""] :=
  missing_body_renders_empty (JVal.num 1) (JVal.str "/static/media/veggieRack.png") (JVal.str "Hydroponics System")

/-- Claim C7: the style configuration declares content-scan paths covering
all React component sources and the public index.html, a disabled
dark-mode strategy, and disabled reset styles (preflight); its remaining
declared option groups (theme extensions, variant extensions, plugins) are
all empty. -/
theorem style_config_declared_options :
    tailwindConfig.purge = ["./src/**/*.\x7bjs,jsx,ts,tsx\x7d", "./public/index.html"] ∧
    tailwindConfig.darkMode = DarkMode.disabled ∧
    tailwindConfig.preflight = false ∧
    tailwindConfig.themeExtend = [] ∧
    tailwindConfig.variantsExtend = [] ∧
    tailwindConfig.plugins = [] :=
  ⟨rfl, rfl, rfl, rfl, rfl, rfl⟩

/-- Claim C8: no supplied component attaches any event handler (no
attribute key anywhere in the page, section or card trees starts with
`on`), and the Team section's View All button carries only a class
attribute — no click handler and no state. -/
theorem no_event_handlers_or_upward_data_flow (p : FarmCardProps) :
    hasEventHandler (About ()) = false ∧
    hasEventHandler (Team ()) = false ∧
    hasEventHandler (FarmingSystems ()) = false ∧
    hasEventHandler (FarmCard p) = false ∧
    attrKeys teamViewAllButton = ["className"] := by
  refine ⟨by decide, by decide, by decide, rfl, by decide⟩

/-- Claim C8 witness: the handler-free invariant at a concrete card. -/
theorem no_event_handlers_or_upward_data_flow_witness :
    hasEventHandler (About ()) = false ∧
    hasEventHandler (Team ()) = false ∧
    hasEventHandler (FarmingSystems ()) = false ∧
    hasEventHandler (FarmCard hydroponicsCard) = false ∧
    attrKeys teamViewAllButton = ["className"] :=
  no_event_handlers_or_upward_data_flow hydroponicsCard

/-- Claim C9: the ordinal numbers of the three FarmCard records in the
FarmingSystems section are 1, 2 and 4 in that order — the third card's
number is 4, not 3, so the ordinals are not consecutive. -/
theorem farm_card_numbers_are_1_2_4 :
    farmingSystemsCards.map FarmCardProps.number = [JVal.num 1, JVal.num 2, JVal.num 4] ∧
    (farmingSystemsCards.map FarmCardProps.number).getD 2 JVal.undef ≠ JVal.num 3 := by
  exact ⟨rfl, by decide⟩

/-- Claim C10: the Team section renders exactly six member cards (two rows
of three); every card shows the name "Malaika Muchiri", the role "Chief
Executive Officer" and the image path /static/media/teamMember.png, and the
testimonial bodies take exactly two distinct strings. -/
theorem team_renders_six_identical_member_cards :
    teamRow1.length = 3 ∧ teamRow2.length = 3 ∧ teamCardBlocks.length = 6 ∧
    teamCardBlocks.all (fun c => cardFirstText c == "Malaika Muchiri" &&
      cardSecondText c == "Chief Executive Officer" &&
      attrValuesOf "backgroundImage" c == [teamImgStyle]) = true ∧
    teamImgStyle = "url(\x27" ++ "/static/media/teamMember.png" ++ "\x27)" ∧
    teamCardBlocks.map cardThirdText = [teamBodyA, teamBodyB, teamBodyA, teamBodyB, teamBodyB, teamBodyB] ∧
    teamBodyA ≠ teamBodyB := by
  refine ⟨rfl, rfl, rfl, by decide, by decide, by decide, by decide⟩
